import Mathlib

/-!
Verification of the BroLab-Fanbase end-to-end test scripts
(`src/testsprite_tests/TC002…py`, `TC004…py`, `TC006…py`, `TC007…py`)
against their natural-language specification.

Each Python script has the shape

    async def run_test():
        pw = None; browser = None; context = None
        try:
            <sequence of awaited browser-engine calls>
        finally:
            if context: await context.close()
            if browser: await browser.close()
            if pw: await pw.stop()

We embed each script as an ordered list of `Action`s (one per awaited or
effectful engine call, in source order).  An `Env` is a fault-injection
oracle: `Env.res i` is the outcome of the i-th call of the try-body
(`none` = the call returns normally, `some e` = the call raises `e`), and
`Env.tres i` likewise for the calls in the finally-block.  `runScenario`
interprets a script under an oracle, reproducing Python's try/except and
try/finally semantics, and records the trace of attempted engine calls.
-/

set_option maxRecDepth 20000
set_option maxHeartbeats 1000000

namespace BroLab

/-- Exceptions distinguished by the scripts:
`async_api.Error` (Playwright errors, including timeouts),
`AssertionError` (raised by `expect(...)` and re-raised with a message),
and anything else. -/
inductive Exc
  | apiError
  | assertionError (msg : String)
  | otherError
deriving DecidableEq, Repr

/-- The second argument of `page.mouse.wheel(0, dy)`: a literal constant,
`await page.evaluate("() => window.innerHeight")`, or its negation. -/
inductive Dy
  | innerHeight
  | negInnerHeight
  | const (n : Int)
deriving DecidableEq, Repr

/-- The handle an interaction is performed on: `page` (the page obtained
from `context.new_page()` at session start) or the fresh
`frame = context.pages[-1]` looked up just before the interaction. -/
inductive Target
  | origPage
  | lastPage
deriving DecidableEq, Repr

/-- One engine call, with the literal arguments appearing in the source. -/
inductive Op
  | startPW
  | launch (headless : Bool) (args : List String)
  | newContext
  | setDefaultTimeout (ms : Nat)
  | newPage
  | goto (url : String) (waitUntilCommit : Bool) (timeout : Nat)
  | waitForLoadState (state : String) (timeout : Nat)
  | evalInnerHeight
  | wheel (dy : Dy)
  | sleep (secs : Nat)
  | waitForTimeout (ms : Nat)
  | getLastPage
  | fill (target : Target) (selector : String) (value : String)
  | click (target : Target) (selector : String) (timeout : Nat)
  | expectVisible (target : Target) (selector : String) (timeout : Nat)
  | closePage
  | closeContext
  | closeBrowser
  | stopPW
deriving DecidableEq, Repr

/-- The three nullable handle variables of every script. -/
inductive Handle
  | pw
  | browser
  | context
deriving DecidableEq, Repr

/-- The exception handler wrapped around a call in the source:
no handler (the exception propagates), `except async_api.Error: pass`,
or `except AssertionError: raise AssertionError(msg)`. -/
inductive HandlerKind
  | propagate
  | swallowApiError
  | replaceAssertionError (msg : String)
deriving DecidableEq, Repr

/-- Effect of a handler on a raised exception: `none` means the exception
is swallowed and execution continues, `some e` means `e` propagates. -/
def applyHandler : HandlerKind → Exc → Option Exc
  | .propagate, e => some e
  | .swallowApiError, .apiError => none
  | .swallowApiError, e => some e
  | .replaceAssertionError m, .assertionError _ => some (.assertionError m)
  | .replaceAssertionError _, e => some e

/-- One statement of the try-body: the engine call it makes, the handler
around it, and the handle variable it assigns on success (e.g.
`pw = await async_api.async_playwright().start()` sets `Handle.pw`). -/
structure Action where
  op : Op
  hk : HandlerKind := .propagate
  sets : Option Handle := none
deriving DecidableEq, Repr

/-- Fault-injection oracle: outcome of the i-th try-body call (`res`),
outcome of the i-th finally-block call (`tres`), and the number of
iframes reported by `page.frames` (`nframes`). -/
structure Env where
  res : Nat → Option Exc
  tres : Nat → Option Exc
  nframes : Nat

/-- Result of running the try-body: the calls attempted (in order), the
handle variables that were assigned, and the escaping exception if any. -/
structure BodyOut where
  trace : List Op
  acquired : List Handle
  exc : Option Exc
deriving DecidableEq, Repr

/-- Handles assigned after `a` completes successfully. -/
def acqAfter (a : Action) (acq : List Handle) : List Handle :=
  match a.sets with
  | some h => acq ++ [h]
  | none => acq

/-- Interpret the try-body: calls run in order; a raised exception is fed
to the call's handler; a propagating exception stops the body (remaining
calls are not attempted) and escapes to the finally-block. -/
def runBody (env : Env) : List Action → Nat → List Handle → BodyOut
  | [], _, acq => ⟨[], acq, none⟩
  | a :: rest, i, acq =>
    match env.res i with
    | none =>
      ⟨a.op :: (runBody env rest (i + 1) (acqAfter a acq)).trace,
       (runBody env rest (i + 1) (acqAfter a acq)).acquired,
       (runBody env rest (i + 1) (acqAfter a acq)).exc⟩
    | some e =>
      match applyHandler a.hk e with
      | none =>
        ⟨a.op :: (runBody env rest (i + 1) acq).trace,
         (runBody env rest (i + 1) acq).acquired,
         (runBody env rest (i + 1) acq).exc⟩
      | some e2 => ⟨[a.op], acq, some e2⟩

/-- The close calls the finally-block makes, given which handles are
non-None: `if context: close; if browser: close; if pw: stop`, in that
source order.  Note there is no `page.close()` in the source. -/
def teardownList (acq : List Handle) : List Op :=
  (if Handle.context ∈ acq then [Op.closeContext] else []) ++
  (if Handle.browser ∈ acq then [Op.closeBrowser] else []) ++
  (if Handle.pw ∈ acq then [Op.stopPW] else [])

/-- Interpret the finally-block calls: they run in order with no handler,
so an exception raised by one of them stops the remaining ones. -/
def runSeq (f : Nat → Option Exc) : List Op → Nat → List Op × Option Exc
  | [], _ => ([], none)
  | o :: rest, i =>
    match f i with
    | none => (o :: (runSeq f rest (i + 1)).1, (runSeq f rest (i + 1)).2)
    | some e => ([o], some e)

/-- Full record of one `run_test()` invocation: try-body trace,
finally-block trace, handles acquired, and the exception escaping
`run_test` (Python semantics: an exception raised in the finally-block
replaces the in-flight body exception). -/
structure RunResult where
  bodyTrace : List Op
  tdTrace : List Op
  acquired : List Handle
  outcome : Option Exc
deriving DecidableEq, Repr

/-- Run one script (as a function of the iframe count) under an oracle. -/
def runScenario (acts : Nat → List Action) (env : Env) : RunResult :=
  { bodyTrace := (runBody env (acts env.nframes) 0 []).trace
    acquired := (runBody env (acts env.nframes) 0 []).acquired
    tdTrace :=
      (runSeq env.tres (teardownList (runBody env (acts env.nframes) 0 []).acquired) 0).1
    outcome :=
      match (runSeq env.tres (teardownList (runBody env (acts env.nframes) 0 []).acquired) 0).2 with
      | some e => some e
      | none => (runBody env (acts env.nframes) 0 []).exc }

/-- Event view of a run: the finally-block entry is a distinguished event
between the body calls and the teardown calls. -/
inductive Ev
  | call (o : Op)
  | finallyEnter
deriving DecidableEq, Repr

def isFinallyEnter : Ev → Bool
  | .finallyEnter => true
  | _ => false

def events (r : RunResult) : List Ev :=
  r.bodyTrace.map Ev.call ++ [Ev.finallyEnter] ++ r.tdTrace.map Ev.call

/-! ### The literal configuration values appearing in the scripts -/

def launchArgs : List String :=
  ["--window-size=1280,720", "--disable-dev-shm-usage", "--ipc=host", "--single-process"]

def baseURL : String := "http://localhost:3000"
def rootURL : String := "http://localhost:3000/"
def signupURL : String := "http://localhost:3000/sign-up"
def signinURL : String := "http://localhost:3000/sign-in"
def loginURL : String := "http://localhost:3000/login"
def onboardingURL : String := "http://localhost:3000/onboarding"
def artistDashURL : String := "http://localhost:3000/artist/dashboard"
def fanDashURL : String := "http://localhost:3000/fan/dashboard"
def signinAltURL : String := "http://localhost:3000/signin"
def protectedURL : String := "http://localhost:3000/protected"
def apiSigninURL : String := "http://localhost:3000/api/auth/signin"
def authURL : String := "http://localhost:3000/auth"

/-! ### Shared prologue (identical lines 10–46 of all four scripts) -/

/-- Lines 12–33: start Playwright, launch Chromium, create context with
default timeout 5000, open a page, goto the base URL with
`wait_until="commit"`, then the optional `domcontentloaded` wait whose
`async_api.Error` is swallowed. -/
def acquireActs : List Action :=
  [{ op := .startPW, sets := some .pw },
   { op := .launch true launchArgs, sets := some .browser },
   { op := .newContext, sets := some .context },
   { op := .setDefaultTimeout 5000 },
   { op := .newPage },
   { op := .goto baseURL true 10000 },
   { op := .waitForLoadState "domcontentloaded" 3000, hk := .swallowApiError }]

/-- Lines 42–46: per-iframe `wait_for_load_state` with swallowed errors. -/
def frameWaits (n : Nat) : List Action :=
  List.replicate n { op := .waitForLoadState "domcontentloaded" 3000, hk := .swallowApiError }

/-- `await page.mouse.wheel(0, await page.evaluate(...))`: two awaits. -/
def wIH : List Action :=
  [{ op := .evalInnerHeight }, { op := .wheel .innerHeight }]

/-- `await page.goto(u, timeout=10000)` followed by `await asyncio.sleep(3)`. -/
def nav3 (u : String) : List Action :=
  [{ op := .goto u false 10000 }, { op := .sleep 3 }]

/-- `frame = context.pages[-1]; elem = frame.locator(sel).nth(0);
await page.wait_for_timeout(3000); await elem.fill(v)`. -/
def fillStep (sel v : String) : List Action :=
  [{ op := .getLastPage }, { op := .waitForTimeout 3000 },
   { op := .fill .lastPage sel v }]

/-- Same shape with `await elem.click(timeout=5000)`. -/
def clickStep (sel : String) : List Action :=
  [{ op := .getLastPage }, { op := .waitForTimeout 3000 },
   { op := .click .lastPage sel 5000 }]

/-! ### TC002 — Successful sign up as Fan -/

def tc002Msg : String :=
  "Test case failed: The user could not successfully sign up, select the Fan role during onboarding, or access the Fan dashboard with the expected route access and features."

def tc002Sel1 : String := "xpath=html/body/div[2]/div[2]/div/input"
def tc002Sel2 : String := "xpath=html/body/div[2]/div[2]/div/div/input"
def tc002Sel3 : String := "xpath=html/body/div[2]/div[2]/div/div/button"
def tc002Sel4 : String := "xpath=html/body/div[2]/div/div/div/div/div/a"

/-- Try-body of `TC002…py` (lines 12–103), one `Action` per awaited call. -/
def tc002Acts (n : Nat) : List Action :=
  acquireActs ++ frameWaits n ++
  (wIH ++ nav3 signupURL ++ nav3 rootURL ++ wIH ++ nav3 loginURL ++ wIH ++
   fillStep tc002Sel1 "test" ++ fillStep tc002Sel2 "test" ++
   clickStep tc002Sel3 ++ wIH ++ clickStep tc002Sel4 ++
   [{ op := .getLastPage },
    { op := .expectVisible .lastPage "text=Exclusive Fan Content Access" 30000,
      hk := .replaceAssertionError tc002Msg },
    { op := .sleep 5 }])

def tc002_run_test : Env → RunResult := runScenario tc002Acts

/-! ### TC004 — Sign in with invalid credentials -/

def tc004Msg : String :=
  "Test failed: Users attempting to sign in with invalid credentials did not receive the expected error message and were not prevented from authenticating as per the test plan."

/-- Try-body of `TC004…py` (lines 12–70). -/
def tc004Acts (n : Nat) : List Action :=
  acquireActs ++ frameWaits n ++
  (nav3 signinURL ++ wIH ++ wIH ++
   [{ op := .evalInnerHeight }, { op := .wheel .negInnerHeight },
    { op := .expectVisible .origPage "text=Authentication Successful" 1000,
      hk := .replaceAssertionError tc004Msg },
    { op := .sleep 5 }])

def tc004_run_test : Env → RunResult := runScenario tc004Acts

/-! ### TC006 — Prevent cross role access -/

/-- Try-body of `TC006…py` (lines 12–172).  The two final `expect` calls
(lines 170–171) have no surrounding try/except: their exceptions
propagate unmodified. -/
def tc006Acts (n : Nat) : List Action :=
  acquireActs ++ frameWaits n ++
  (nav3 signinURL ++ wIH ++ nav3 signinURL ++ nav3 onboardingURL ++
   nav3 baseURL ++ nav3 artistDashURL ++
   (List.replicate 5 wIH).flatten ++ (List.replicate 4 wIH).flatten ++
   nav3 rootURL ++ (List.replicate 5 wIH).flatten ++
   nav3 signinAltURL ++ (List.replicate 5 wIH).flatten ++
   nav3 fanDashURL ++ nav3 signinURL ++ nav3 artistDashURL ++
   (List.replicate 5 wIH).flatten ++
   [{ op := .getLastPage },
    { op := .expectVisible .lastPage "text=Welcome back" 30000 },
    { op := .expectVisible .lastPage "text=Sign in to your BroLab Fanbase account" 30000 },
    { op := .sleep 5 }])

def tc006_run_test : Env → RunResult := runScenario tc006Acts

/-! ### TC007 — Redirect users without role to onboarding -/

def tc007Msg : String :=
  "Test failed: Users who have authenticated but have not selected a role are not redirected to the onboarding page to select their role as required by the test plan."

/-- Try-body of `TC007…py` (lines 12–151). -/
def tc007Acts (n : Nat) : List Action :=
  acquireActs ++ frameWaits n ++
  ([{ op := .wheel (.const 300) }, { op := .wheel (.const 600) }] ++
   nav3 protectedURL ++ [{ op := .wheel (.const 300) }] ++
   nav3 apiSigninURL ++ nav3 apiSigninURL ++ [{ op := .wheel (.const 300) }] ++
   (List.replicate 10 wIH).flatten ++
   nav3 rootURL ++ wIH ++
   [{ op := .evalInnerHeight }, { op := .wheel .negInnerHeight }] ++
   nav3 loginURL ++ wIH ++ nav3 rootURL ++ wIH ++
   nav3 authURL ++ nav3 rootURL ++ nav3 signinURL ++ nav3 rootURL ++
   [{ op := .expectVisible .origPage "text=User role selection required" 1000,
      hk := .replaceAssertionError tc007Msg },
    { op := .sleep 5 }])

def tc007_run_test : Env → RunResult := runScenario tc007Acts

/-! ### Oracles used in the theorems -/

/-- Every call succeeds, no iframes. -/
def envAllOk : Env := ⟨fun _ => none, fun _ => none, 0⟩

/-- The k-th try-body call raises `e`; everything else succeeds. -/
def envFailAt (k : Nat) (e : Exc) : Env :=
  ⟨fun i => if i = k then some e else none, fun _ => none, 0⟩

/-- The try-body succeeds; the first finally-block call raises `e`. -/
def envTdFail (e : Exc) : Env :=
  ⟨fun _ => none, fun i => if i = 0 then some e else none, 0⟩

/-! ### Extraction helpers over scenarios and traces -/

/-- The Step-level operations of a script (Navigate / Scroll / Fill /
Click), dropping session acquisition, waits, sleeps and lookups. -/
def scenarioSteps (acts : List Action) : List Op :=
  acts.filterMap fun a =>
    match a.op with
    | .goto u w t => some (.goto u w t)
    | .wheel d => some (.wheel d)
    | .fill t s v => some (.fill t s v)
    | .click t s tmo => some (.click t s tmo)
    | _ => none

/-- The navigation URLs of a script, in authored order. -/
def gotoURLs (acts : List Action) : List String :=
  acts.filterMap fun a =>
    match a.op with
    | .goto u _ _ => some u
    | _ => none

/-- The navigation URLs attempted in a trace, in order. -/
def traceGotoURLs (t : List Op) : List String :=
  t.filterMap fun o =>
    match o with
    | .goto u _ _ => some u
    | _ => none

/-- The final-assertion specifications of a script:
target handle, text selector, and timeout. -/
def assertSpecs (acts : List Action) : List (Target × String × Nat) :=
  acts.filterMap fun a =>
    match a.op with
    | .expectVisible t s tmo => some (t, s, tmo)
    | _ => none

/-- Assertion timeouts of a script. -/
def assertTimeouts (acts : List Action) : List Nat :=
  acts.filterMap fun a =>
    match a.op with
    | .expectVisible _ _ tmo => some tmo
    | _ => none

/-- The explicit timeouts of the navigation/interaction steps of a
script: `goto`, `wait_for_load_state`, `wait_for_timeout`, `click`. -/
def stepTimeouts (acts : List Action) : List Nat :=
  acts.filterMap fun a =>
    match a.op with
    | .goto _ _ t => some t
    | .waitForLoadState _ t => some t
    | .waitForTimeout t => some t
    | .click _ _ t => some t
    | _ => none

/-- The handles that Fill / Click / final-assertion interactions are
performed on, in authored order. -/
def interactionTargets (acts : List Action) : List Target :=
  acts.filterMap fun a =>
    match a.op with
    | .fill t _ _ => some t
    | .click t _ _ => some t
    | .expectVisible t _ _ => some t
    | _ => none

/-- Number of `frame = context.pages[-1]` lookups in a script. -/
def lastPageLookups (acts : List Action) : Nat :=
  acts.countP fun a => decide (a.op = Op.getLastPage)

/-! ### General lemmas about the interpreter -/

lemma countP_comp_finallyEnter (l : List Op) :
    l.countP (isFinallyEnter ∘ Ev.call) = 0 := by
  induction l with
  | nil => rfl
  | cons a t ih => simp [List.countP_cons, isFinallyEnter, Function.comp, ih]

/-- The finally-block calls that actually run are an initial segment of
the close calls dictated by the acquired handles. -/
lemma runSeq_trace_init (f : Nat → Option Exc) :
    ∀ (l : List Op) (i : Nat), ∃ rest, (runSeq f l i).1 ++ rest = l := by
  intro l
  induction l with
  | nil => intro i; exact ⟨[], rfl⟩
  | cons o t ih =>
    intro i
    cases h : f i with
    | none =>
      obtain ⟨r, hr⟩ := ih (i + 1)
      exact ⟨r, by simp [runSeq, h, hr]⟩
    | some e => exact ⟨t, by simp [runSeq, h]⟩

/-- When no close call raises, the finally-block runs all of them. -/
lemma runSeq_all_none (f : Nat → Option Exc) (hf : ∀ j, f j = none) :
    ∀ (l : List Op) (i : Nat), runSeq f l i = (l, none) := by
  intro l
  induction l with
  | nil => intro i; rfl
  | cons o t ih => intro i; simp [runSeq, hf i, ih (i + 1)]

/-- The try-body calls attempted are an initial segment of the script. -/
lemma runBody_trace_init (env : Env) :
    ∀ (acts : List Action) (i : Nat) (acq : List Handle),
      ∃ rest, (runBody env acts i acq).trace ++ rest = acts.map Action.op := by
  intro acts
  induction acts with
  | nil => intro i acq; exact ⟨[], rfl⟩
  | cons a t ih =>
    intro i acq
    cases h : env.res i with
    | none =>
      obtain ⟨r, hr⟩ := ih (i + 1) (acqAfter a acq)
      exact ⟨r, by simp [runBody, h, hr]⟩
    | some e =>
      cases h2 : applyHandler a.hk e with
      | none =>
        obtain ⟨r, hr⟩ := ih (i + 1) acq
        exact ⟨r, by simp [runBody, h, h2, hr]⟩
      | some e2 => exact ⟨t.map Action.op, by simp [runBody, h, h2]⟩

lemma mem_acq_of_closeContext (acq : List Handle)
    (h : Op.closeContext ∈ teardownList acq) : Handle.context ∈ acq := by
  by_cases hc : Handle.context ∈ acq
  · exact hc
  · exfalso
    simp [teardownList, hc] at h

lemma mem_acq_of_closeBrowser (acq : List Handle)
    (h : Op.closeBrowser ∈ teardownList acq) : Handle.browser ∈ acq := by
  by_cases hb : Handle.browser ∈ acq
  · exact hb
  · exfalso
    simp [teardownList, hb] at h

lemma mem_acq_of_stopPW (acq : List Handle)
    (h : Op.stopPW ∈ teardownList acq) : Handle.pw ∈ acq := by
  by_cases hp : Handle.pw ∈ acq
  · exact hp
  · exfalso
    simp [teardownList, hp] at h

/-! ### Claim theorems -/

/-- C1: for every scenario and every fault-injection oracle — the run may
terminate in session-acquisition failure, a step raising at any index,
assertion failure, or success — the finally-block (resource release) is
entered exactly once, and the close calls it makes are exactly an initial
segment of the release sequence for the acquired handles. -/
theorem C1_teardown_runs_exactly_once (acts : Nat → List Action) (env : Env) :
    (events (runScenario acts env)).countP isFinallyEnter = 1 ∧
    ∃ rest, (runScenario acts env).tdTrace ++ rest =
      teardownList (runScenario acts env).acquired := by
  constructor
  · simp [events, List.countP_append, List.countP_map, countP_comp_finallyEnter,
      List.countP_cons, isFinallyEnter]
  · simp only [runScenario]
    exact runSeq_trace_init env.tres _ 0

/-- C1 witness: a run of TC002 whose fourth engine call raises an
unexpected error still enters the finally-block exactly once. -/
theorem C1_witness :
    (events (runScenario tc002Acts (envFailAt 3 Exc.otherError))).countP isFinallyEnter = 1 :=
  (C1_teardown_runs_exactly_once tc002Acts (envFailAt 3 Exc.otherError)).1

/-- C2 counterexample: in a TC002 run where `context.close()` raises, the
finally-block attempts no further close call — `browser.close()` is never
invoked — so an error closing the context does prevent closing the
browser, and no close error is swallowed (the exception escapes the run).
This refutes the claimed page→context→browser, error-swallowing release. -/
theorem C2_counterexample_context_close_failure :
    (tc002_run_test (envTdFail Exc.apiError)).tdTrace = [Op.closeContext] ∧
    Op.closeBrowser ∉ (tc002_run_test (envTdFail Exc.apiError)).tdTrace ∧
    (tc002_run_test (envTdFail Exc.apiError)).outcome = some Exc.apiError := by
  refine ⟨by decide, by decide, by decide⟩

/-- C2 amended: release closes context, then browser, then stops the
engine, in that source order; the page is never closed separately; and an
error raised while closing the context is not swallowed — it stops the
remaining close calls and escapes the run. -/
theorem C2_release_order_no_swallow (e : Exc) :
    (tc002_run_test envAllOk).tdTrace = [Op.closeContext, Op.closeBrowser, Op.stopPW] ∧
    Op.closePage ∉ (tc002_run_test envAllOk).tdTrace ∧
    (tc002_run_test (envTdFail e)).tdTrace = [Op.closeContext] ∧
    (tc002_run_test (envTdFail e)).outcome = some e := by
  refine ⟨by decide, by decide, rfl, rfl⟩

/-- C2 witness: the amended release behavior at a concrete exception. -/
theorem C2_witness :
    (tc002_run_test envAllOk).tdTrace = [Op.closeContext, Op.closeBrowser, Op.stopPW] :=
  (C2_release_order_no_swallow Exc.otherError).1

/-- C3 counterexample: when the final `expect(...).to_be_visible` of TC004
times out (raising `AssertionError`), the script re-raises an
`AssertionError` that escapes `run_test` — the assertion timeout surfaces
to the caller as a thrown error, not as a returned Failed value. -/
theorem C3_counterexample_assertion_raises :
    (tc004_run_test (envFailAt 15 (Exc.assertionError "Timeout 1000ms exceeded"))).outcome
      = some (Exc.assertionError tc004Msg) ∧
    (tc004_run_test (envFailAt 15 (Exc.assertionError "Timeout 1000ms exceeded"))).outcome
      ≠ none := by
  refine ⟨by decide, by decide⟩

/-- C3 amended: on final-assertion timeout every scenario raises rather
than returning false: TC002, TC004 and TC007 catch the engine's
`AssertionError` and re-raise an `AssertionError` carrying their
scenario-specific diagnostic message, while TC006 (whose asserts have no
handler) lets the engine's `AssertionError` propagate unmodified. -/
theorem C3_assertion_timeout_raises (m : String) :
    (tc004_run_test (envFailAt 15 (Exc.assertionError m))).outcome
      = some (Exc.assertionError tc004Msg) ∧
    (tc002_run_test (envFailAt 34 (Exc.assertionError m))).outcome
      = some (Exc.assertionError tc002Msg) ∧
    (tc007_run_test (envFailAt 59 (Exc.assertionError m))).outcome
      = some (Exc.assertionError tc007Msg) ∧
    (tc006_run_test (envFailAt 78 (Exc.assertionError m))).outcome
      = some (Exc.assertionError m) := by
  refine ⟨rfl, rfl, rfl, rfl⟩

/-- C3 witness: the amended behavior at the engine's concrete timeout
message. -/
theorem C3_witness :
    (tc006_run_test (envFailAt 78 (Exc.assertionError "Timeout 30000ms exceeded"))).outcome
      = some (Exc.assertionError "Timeout 30000ms exceeded") :=
  (C3_assertion_timeout_raises "Timeout 30000ms exceeded").2.2.2

/-- C4 counterexample: under an oracle where every call succeeds — in
particular the first alternative navigation `goto /sign-up` succeeds —
the TC002 run still attempts the later alternatives `/` and `/login`:
resolution does not stop at the first successful alternative. -/
theorem C4_counterexample_all_alternatives_attempted :
    traceGotoURLs (tc002_run_test envAllOk).bodyTrace
      = [baseURL, signupURL, rootURL, loginURL] ∧
    (tc002_run_test envAllOk).outcome = none := by
  refine ⟨by decide, by decide⟩

/-- C4 amended: the alternative routes are attempted strictly in authored
order, but unconditionally — every alternative is attempted regardless of
earlier success — and there is no NotFound result: a failed navigation
raises an error that aborts the remaining steps of the run. -/
theorem C4_alternatives_in_authored_order (e : Exc) :
    gotoURLs (tc002Acts 0) = [baseURL, signupURL, rootURL, loginURL] ∧
    traceGotoURLs (tc002_run_test envAllOk).bodyTrace
      = [baseURL, signupURL, rootURL, loginURL] ∧
    (tc002_run_test (envFailAt 9 e)).outcome = some e ∧
    (tc002_run_test (envFailAt 9 e)).bodyTrace
      = ((tc002Acts 0).map Action.op).take 10 := by
  refine ⟨by decide, by decide, rfl, rfl⟩

/-- C4 witness: the amended navigation behavior at a concrete failure. -/
theorem C4_witness :
    (tc002_run_test (envFailAt 9 Exc.apiError)).outcome = some Exc.apiError :=
  (C4_alternatives_in_authored_order Exc.apiError).2.2.1

/-- C5 counterexample: when the first Fill of TC002 (index 21, the
email-like field) raises a Playwright timeout error, the run aborts
immediately — the second Fill and the final assertion are never attempted
and the error escapes — so a single selector-resolution failure on a
Fill step does by itself abort the run. -/
theorem C5_counterexample_fill_failure_aborts :
    (tc002_run_test (envFailAt 21 Exc.apiError)).outcome = some Exc.apiError ∧
    Op.fill Target.lastPage tc002Sel2 "test"
      ∉ (tc002_run_test (envFailAt 21 Exc.apiError)).bodyTrace ∧
    Op.expectVisible Target.lastPage "text=Exclusive Fan Content Access" 30000
      ∉ (tc002_run_test (envFailAt 21 Exc.apiError)).bodyTrace := by
  refine ⟨by decide, by decide, by decide⟩

/-- C5 amended: a Fill or Click whose selector is not actionable within
its timeout raises an error that is immediately fatal: the body stops at
that step (the trace is exactly the script's first 22 calls) and the
error escapes; no fallback resolution is attempted before the run fails. -/
theorem C5_fill_click_failure_fatal (e : Exc) :
    (tc002_run_test (envFailAt 21 e)).outcome = some e ∧
    (tc002_run_test (envFailAt 21 e)).bodyTrace
      = ((tc002Acts 0).map Action.op).take 22 := by
  refine ⟨rfl, rfl⟩

/-- C5 witness: the amended fatality at a concrete timeout error. -/
theorem C5_witness :
    (tc002_run_test (envFailAt 21 Exc.apiError)).bodyTrace
      = ((tc002Acts 0).map Action.op).take 22 :=
  (C5_fill_click_failure_fatal Exc.apiError).2

/-- C6 counterexample: the step sequence of the Invalid sign-in scenario
(TC004) is not a single Navigate to /sign-in — it also navigates to the
base URL first and performs three scroll probes before the final
assertion. -/
theorem C6_counterexample_extra_steps :
    scenarioSteps (tc004Acts 0) ≠ [Op.goto signinURL false 10000] ∧
    scenarioSteps (tc004Acts 0)
      = [Op.goto baseURL true 10000, Op.goto signinURL false 10000,
         Op.wheel .innerHeight, Op.wheel .innerHeight, Op.wheel .negInnerHeight] := by
  refine ⟨by decide, by decide⟩

/-- C6 amended: the Invalid sign-in scenario navigates to the base URL,
then to /sign-in, performs three scroll probes, and finally asserts that
the text "Authentication Successful" is visible on the original page
handle within 1000ms; when that assertion times out the run fails with an
AssertionError whose message says invalid credentials were not rejected. -/
theorem C6_invalid_signin_scenario (m : String) :
    scenarioSteps (tc004Acts 0)
      = [Op.goto baseURL true 10000, Op.goto signinURL false 10000,
         Op.wheel .innerHeight, Op.wheel .innerHeight, Op.wheel .negInnerHeight] ∧
    assertSpecs (tc004Acts 0) = [(Target.origPage, "text=Authentication Successful", 1000)] ∧
    (tc004_run_test (envFailAt 15 (Exc.assertionError m))).outcome
      = some (Exc.assertionError tc004Msg) := by
  refine ⟨by decide, by decide, rfl⟩

/-- C6 witness: the amended scenario shape at a concrete timeout. -/
theorem C6_witness :
    assertSpecs (tc004Acts 0) = [(Target.origPage, "text=Authentication Successful", 1000)] :=
  (C6_invalid_signin_scenario "Timeout 1000ms exceeded").2.1

/-- C7 counterexample: in TC002 the final-assertion timeout is 30000ms
while the navigation steps use 10000ms — the assertion timeout is not
strictly shorter than the step timeouts. -/
theorem C7_counterexample_tc002_assert_timeout :
    assertTimeouts (tc002Acts 0) = [30000] ∧
    (stepTimeouts (tc002Acts 0)).all (fun t => decide (30000 < t)) = false ∧
    10000 ∈ stepTimeouts (tc002Acts 0) := by
  refine ⟨by decide, by decide, by decide⟩

/-- C7 amended: the assertion timeout is strictly shorter than every step
timeout only in TC004 and TC007 (1000ms against steps of 3000–10000ms);
in TC002 and TC006 the assertion timeout is 30000ms, larger than every
step timeout. -/
theorem C7_assertion_vs_step_timeouts :
    assertTimeouts (tc004Acts 0) = [1000] ∧
    (stepTimeouts (tc004Acts 0)).all (fun t => decide (1000 < t)) = true ∧
    assertTimeouts (tc007Acts 0) = [1000] ∧
    (stepTimeouts (tc007Acts 0)).all (fun t => decide (1000 < t)) = true ∧
    assertTimeouts (tc002Acts 0) = [30000] ∧
    (stepTimeouts (tc002Acts 0)).all (fun t => decide (30000 < t)) = false ∧
    assertTimeouts (tc006Acts 0) = [30000, 30000] ∧
    (stepTimeouts (tc006Acts 0)).all (fun t => decide (30000 < t)) = false := by
  refine ⟨by decide, by decide, by decide, by decide, by decide, by decide, by decide, by decide⟩

/-- C8 counterexample: two runs under entirely different oracles (one
all-success with no iframes, one with three iframes whose load waits
fail) emit the identical launch configuration — base URL
http://localhost:3000, default timeout 5000ms, headless = true, window
size 1280x720 and the sandbox/IPC flags — because these values are fixed
literals inside `run_test`, which takes no configuration parameter. -/
theorem C8_counterexample_fixed_config :
    (tc002_run_test envAllOk).bodyTrace.take 6
      = [Op.startPW, Op.launch true launchArgs, Op.newContext,
         Op.setDefaultTimeout 5000, Op.newPage, Op.goto baseURL true 10000] ∧
    (tc002_run_test ⟨fun i => if i ≤ 5 then none else some Exc.otherError,
        fun _ => none, 3⟩).bodyTrace.take 6
      = [Op.startPW, Op.launch true launchArgs, Op.newContext,
         Op.setDefaultTimeout 5000, Op.newPage, Op.goto baseURL true 10000] ∧
    launchArgs = ["--window-size=1280,720", "--disable-dev-shm-usage",
                  "--ipc=host", "--single-process"] := by
  refine ⟨by decide, by decide, by decide⟩

/-- C8 amended: all recognized configuration options are fixed literals
inside each scenario body — under any oracle a run of TC002 only ever
attempts an initial segment of the one hardcoded call sequence below,
whose configuration values (base URL, 5000ms default timeout, 30000ms
assertion timeout, headless = true, 1280x720 window, launch flags) are
constants; no configuration is supplied from outside. -/
theorem C8_config_literals (env : Env) :
    (∃ rest, (tc002_run_test env).bodyTrace ++ rest
      = (tc002Acts env.nframes).map Action.op) ∧
    (tc002Acts 0).map Action.op
      = [Op.startPW, Op.launch true launchArgs, Op.newContext,
         Op.setDefaultTimeout 5000, Op.newPage, Op.goto baseURL true 10000,
         Op.waitForLoadState "domcontentloaded" 3000,
         Op.evalInnerHeight, Op.wheel .innerHeight,
         Op.goto signupURL false 10000, Op.sleep 3,
         Op.goto rootURL false 10000, Op.sleep 3,
         Op.evalInnerHeight, Op.wheel .innerHeight,
         Op.goto loginURL false 10000, Op.sleep 3,
         Op.evalInnerHeight, Op.wheel .innerHeight,
         Op.getLastPage, Op.waitForTimeout 3000,
         Op.fill .lastPage tc002Sel1 "test",
         Op.getLastPage, Op.waitForTimeout 3000,
         Op.fill .lastPage tc002Sel2 "test",
         Op.getLastPage, Op.waitForTimeout 3000,
         Op.click .lastPage tc002Sel3 5000,
         Op.evalInnerHeight, Op.wheel .innerHeight,
         Op.getLastPage, Op.waitForTimeout 3000,
         Op.click .lastPage tc002Sel4 5000,
         Op.getLastPage,
         Op.expectVisible .lastPage "text=Exclusive Fan Content Access" 30000,
         Op.sleep 5] := by
  constructor
  · simp only [tc002_run_test, runScenario]
    exact runBody_trace_init env (tc002Acts env.nframes) 0 []
  · decide

/-- C8 witness: the hardcoded call sequence under the all-success oracle. -/
theorem C8_witness :
    ∃ rest, (tc002_run_test envAllOk).bodyTrace ++ rest
      = (tc002Acts envAllOk.nframes).map Action.op :=
  (C8_config_literals envAllOk).1

/-- C9 counterexample: the final assertions of TC004 and TC007 are
evaluated against `page` — the handle obtained from `context.new_page()`
before any navigation — not against a freshly resolved
`context.pages[-1]`, refuting the claimed re-resolution before every
final-assertion interaction. -/
theorem C9_counterexample_orig_page_assert :
    interactionTargets (tc004Acts 0) = [Target.origPage] ∧
    interactionTargets (tc007Acts 0) = [Target.origPage] ∧
    Target.origPage ≠ Target.lastPage := by
  refine ⟨by decide, by decide, by decide⟩

/-- C9 amended: TC002 and TC006 resolve `frame = context.pages[-1]`
afresh before each Fill/Click and before the final assertions (five
lookups for TC002's five interactions; one lookup for TC006's two
back-to-back assertions), but TC004 and TC007 evaluate their final
assertion against the original page handle obtained before any
navigation. -/
theorem C9_interaction_target_resolution :
    interactionTargets (tc002Acts 0)
      = [Target.lastPage, Target.lastPage, Target.lastPage, Target.lastPage, Target.lastPage] ∧
    lastPageLookups (tc002Acts 0) = 5 ∧
    interactionTargets (tc006Acts 0) = [Target.lastPage, Target.lastPage] ∧
    lastPageLookups (tc006Acts 0) = 1 ∧
    interactionTargets (tc004Acts 0) = [Target.origPage] ∧
    interactionTargets (tc007Acts 0) = [Target.origPage] := by
  refine ⟨by decide, by decide, by decide, by decide, by decide, by decide⟩

/-- C10: teardown only attempts to close handles that were actually
acquired: a close call appears in the finally-block trace only if the
corresponding handle variable was assigned, and when no close call itself
raises, the finally-block runs exactly the close calls for the acquired
handles — no close is ever invoked on an unacquired handle. -/
theorem C10_teardown_closes_only_acquired (env : Env) :
    (Op.closeContext ∈ (tc002_run_test env).tdTrace →
      Handle.context ∈ (tc002_run_test env).acquired) ∧
    (Op.closeBrowser ∈ (tc002_run_test env).tdTrace →
      Handle.browser ∈ (tc002_run_test env).acquired) ∧
    (Op.stopPW ∈ (tc002_run_test env).tdTrace →
      Handle.pw ∈ (tc002_run_test env).acquired) ∧
    ((∀ i, env.tres i = none) →
      (tc002_run_test env).tdTrace = teardownList (tc002_run_test env).acquired) := by
  obtain ⟨rest, hr⟩ := runSeq_trace_init env.tres
    (teardownList (runBody env (tc002Acts env.nframes) 0 []).acquired) 0
  refine ⟨?_, ?_, ?_, ?_⟩
  · intro hmem
    simp only [tc002_run_test, runScenario] at hmem ⊢
    exact mem_acq_of_closeContext _ (hr ▸ List.mem_append_left rest hmem)
  · intro hmem
    simp only [tc002_run_test, runScenario] at hmem ⊢
    exact mem_acq_of_closeBrowser _ (hr ▸ List.mem_append_left rest hmem)
  · intro hmem
    simp only [tc002_run_test, runScenario] at hmem ⊢
    exact mem_acq_of_stopPW _ (hr ▸ List.mem_append_left rest hmem)
  · intro htres
    simp only [tc002_run_test, runScenario]
    rw [runSeq_all_none env.tres htres]

/-- C10 witness: when the browser launch (call index 1) fails, only the
engine handle was acquired and teardown attempts exactly `pw.stop()`. -/
theorem C10_witness :
    (tc002_run_test (envFailAt 1 Exc.apiError)).tdTrace
      = teardownList (tc002_run_test (envFailAt 1 Exc.apiError)).acquired ∧
    (tc002_run_test (envFailAt 1 Exc.apiError)).acquired = [Handle.pw] ∧
    (tc002_run_test (envFailAt 1 Exc.apiError)).tdTrace = [Op.stopPW] :=
  ⟨(C10_teardown_closes_only_acquired (envFailAt 1 Exc.apiError)).2.2.2 (fun _ => rfl),
   by decide, by decide⟩

end BroLab
